import Mathlib

/-!
Shallow embedding of the self-preservation / health-monitoring engine
(`self_preservation.py`) and the goal lifecycle store (`goal_system.py`)
of the Self_Evolving_AI repository, together with theorems settling the
specification claims about them.

Modelling conventions:
* Python `time.time()` values and ISO timestamps are modelled as `Int`
  seconds; every operation that reads the clock takes the current time as
  an explicit argument.
* Python dicts used as keyed registries (`component_states`) are modelled
  as association lists in insertion order, matching dict iteration order.
* Python floats used for goal progress are modelled as `ℚ`; the source
  only compares and clamps them, and the completion comparison `>= 100`
  is exact in the reachable range.
* `hash(description)` (randomised per process by PYTHONHASHSEED) is an
  explicit argument to `reportError`.
* File I/O outcomes (state snapshot write, backup load) are explicit
  arguments, since they are environment behaviour, not program logic.
-/

namespace SelfEvolvingAI

/-- A registered component record, mirroring the dict created by
`register_component` in self_preservation.py. -/
structure Component where
  state : String
  last_heartbeat : Int
  error_count : Nat
  recovery_count : Nat
  last_error : Option Int
  deriving Repr, DecidableEq

/-- An entry of `self.error_log`.  Only the fields the control flow reads
are retained: `timestamp` is `none` for the records the source appends
without a "timestamp" key (the save/restore failure records). -/
structure ErrorEntry where
  component : Option String
  severity : Option String
  timestamp : Option Int
  deriving Repr, DecidableEq

/-- The `recovery_counters` dict. -/
structure RecoveryCounters where
  total_recoveries : Nat
  failed_recoveries : Nat
  strategy_usage : List (String × Nat)
  deriving Repr, DecidableEq

/-- The mutable state of a `SelfPreservation` instance. -/
structure SPState where
  system_state : String
  error_log : List ErrorEntry
  component_states : List (String × Component)
  recovery_counters : RecoveryCounters
  monitoring_active : Bool
  shutdown_requested : Bool
  last_state_save : Int
  deriving Repr, DecidableEq

/-- `error_thresholds["errors_per_minute"]`. -/
def errorsPerMinute : Nat := 5

/-- `error_thresholds["consecutive_failures"]`. -/
def consecutiveFailures : Nat := 3

/-- The components treated as safety-critical in `update_component_state`. -/
def criticalComponents : List String := ["safety_filter", "main_assistant"]

/-- The keys of `self.recovery_strategies`. -/
def recoveryStrategies : List String :=
  ["memory_overflow", "process_hang", "data_corruption", "component_failure",
   "resource_exhaustion"]

/-- State after `__init__` (a fresh instance). -/
def initialSP (now : Int) : SPState :=
  { system_state := "initializing"
    error_log := []
    component_states := []
    recovery_counters := ⟨0, 0, []⟩
    monitoring_active := false
    shutdown_requested := false
    last_state_save := now }

/-- Python dict assignment `d[k] = v`: replace in place if the key exists,
otherwise append (insertion order is preserved). -/
def setKey (l : List (String × Component)) (k : String) (v : Component) :
    List (String × Component) :=
  if l.any (fun p => p.1 == k) then
    l.map (fun p => if p.1 == k then (k, v) else p)
  else l ++ [(k, v)]

/-- `register_component`: unconditionally (re)writes the record. -/
def registerComponent (s : SPState) (name initial_state : String) (now : Int) :
    SPState :=
  let fresh : Component :=
    { state := initial_state, last_heartbeat := now, error_count := 0,
      recovery_count := 0, last_error := none }
  { s with component_states := setKey s.component_states name fresh }

/-- `start_monitoring`: returns false if already active, otherwise sets the
flag and forces `system_state` to "stable" (direct assignment in the source,
no log event). -/
def startMonitoring (s : SPState) : SPState × Bool :=
  if s.monitoring_active then (s, false)
  else ({ s with monitoring_active := true, system_state := "stable" }, true)

/-- `stop_monitoring`. -/
def stopMonitoring (s : SPState) : SPState × Bool :=
  if s.monitoring_active then ({ s with monitoring_active := false }, true)
  else (s, false)

/-- The state-change event appended by `_update_system_state`; it carries an
ISO timestamp, so it counts as a recent error for `monitor_system_health`. -/
def stateChangeEntry (now : Int) : ErrorEntry :=
  { component := some "self_preservation", severity := none, timestamp := some now }

/-- `_update_system_state`: assigns the new state; on an actual change it
appends a state-change event to `error_log`. -/
def updateSystemState (s : SPState) (newState : String) (now : Int) : SPState :=
  let old := s.system_state
  let s1 := { s with system_state := newState }
  if old ≠ newState then
    { s1 with error_log := s1.error_log ++ [stateChangeEntry now] }
  else s1

/-- The `component_error` record appended when a component transitions into
the error state. -/
def componentErrorEntry (name : String) (now : Int) : ErrorEntry :=
  { component := some name, severity := none, timestamp := some now }

/-- `update_component_state`: returns false for an unknown component name
without touching anything; otherwise writes the new state, refreshes the
heartbeat, and on a transition into "error" bumps the error counters, logs
a `component_error` record, and downgrades the system state if the
component is safety-critical. -/
def updateComponentState (s : SPState) (name state : String) (now : Int) :
    SPState × Bool :=
  match s.component_states.lookup name with
  | none => (s, false)
  | some comp =>
    let prev := comp.state
    let comp1 := { comp with state := state, last_heartbeat := now }
    let s1 := { s with component_states := setKey s.component_states name comp1 }
    if prev ≠ state then
      if state = "error" ∧ prev ≠ "error" then
        let comp2 := { comp1 with error_count := comp1.error_count + 1,
                                  last_error := some now }
        let s2 := { s1 with
          component_states := setKey s1.component_states name comp2,
          error_log := s1.error_log ++ [componentErrorEntry name now] }
        if name ∈ criticalComponents then
          (updateSystemState s2 "degraded" now, true)
        else (s2, true)
      else (s1, true)
    else (s1, true)

/-- `component_heartbeat`: false for an unknown name, otherwise refreshes
`last_heartbeat` only. -/
def componentHeartbeat (s : SPState) (name : String) (now : Int) :
    SPState × Bool :=
  match s.component_states.lookup name with
  | none => (s, false)
  | some comp =>
    let comp1 := { comp with last_heartbeat := now }
    ({ s with component_states := setKey s.component_states name comp1 }, true)

/-- Increment of `strategy_usage[recovery_type]` (insert at 1 if absent). -/
def bumpUsage (l : List (String × Nat)) (k : String) : List (String × Nat) :=
  if l.any (fun p => p.1 == k) then
    l.map (fun p => if p.1 == k then (p.1, p.2 + 1) else p)
  else l ++ [(k, 1)]

/-- Execution of a registered recovery strategy.  All five simulated
strategies report success; only `_recover_component_failure` mutates state:
it sets the context component (if registered) to "restarting" and then, on
the simulated success, to "active" with a refreshed heartbeat and an
incremented `recovery_count` — the net effect modelled here. -/
def runStrategy (s : SPState) (rtype : String) (ctxComponent : Option String)
    (now : Int) : SPState × Bool :=
  if rtype = "component_failure" then
    let name := ctxComponent.getD "unknown"
    match s.component_states.lookup name with
    | some comp =>
      let comp1 := { comp with state := "active", last_heartbeat := now,
                               recovery_count := comp.recovery_count + 1 }
      ({ s with component_states := setKey s.component_states name comp1 }, true)
    | none => (s, true)
  else (s, true)

/-- `_attempt_recovery`: bumps the attempt counters, runs the strategy when
registered (all registered strategies succeed, so `failed_recoveries` is
untouched on that path), otherwise records a failure. -/
def attemptRecovery (s : SPState) (rtype : String) (ctxComponent : Option String)
    (now : Int) : SPState × Bool :=
  let rc := s.recovery_counters
  let rc1 := { rc with total_recoveries := rc.total_recoveries + 1,
                       strategy_usage := bumpUsage rc.strategy_usage rtype }
  let s1 := { s with recovery_counters := rc1 }
  if rtype ∈ recoveryStrategies then runStrategy s1 rtype ctxComponent now
  else
    ({ s1 with recovery_counters :=
        { s1.recovery_counters with
          failed_recoveries := s1.recovery_counters.failed_recoveries + 1 } },
     false)

/-- The caller-supplied argument of `report_error`; the three required
fields are optional here so that the validation step is expressible. -/
structure ErrorReport where
  component : Option String
  error_type : Option String
  description : Option String
  severity : Option String
  requires_immediate_recovery : Bool
  recovery_type : Option String
  deriving Repr, DecidableEq

/-- `report_error`: rejects a report missing a required field (returns the
empty id, no state change); otherwise appends the report to the error log
and acts on its severity: "critical" downgrades the system state and may
synchronously attempt a registered recovery; "warning" downgrades only when
the named component has accumulated at least `consecutive_failures` errors.
`descHash` stands for Python's randomised `hash(description) % 10000`. -/
def reportError (s : SPState) (r : ErrorReport) (now : Int) (descHash : Nat) :
    SPState × String :=
  if r.component = none ∨ r.error_type = none ∨ r.description = none then
    (s, "")
  else
    let errorId := "err_" ++ toString now ++ "_" ++ toString (descHash % 10000)
    let entry : ErrorEntry :=
      { component := r.component, severity := r.severity, timestamp := some now }
    let s1 := { s with error_log := s.error_log ++ [entry] }
    let severity := r.severity.getD "warning"
    if severity = "critical" then
      let s2 := updateSystemState s1 "degraded" now
      if r.requires_immediate_recovery then
        match r.recovery_type with
        | some rt =>
          if rt ∈ recoveryStrategies then
            ((attemptRecovery s2 rt r.component now).1, errorId)
          else (s2, errorId)
        | none => (s2, errorId)
      else (s2, errorId)
    else if severity = "warning" then
      match r.component with
      | some comp =>
        match s1.component_states.lookup comp with
        | some c =>
          if c.error_count ≥ consecutiveFailures then
            (updateSystemState s1 "degraded" now, errorId)
          else (s1, errorId)
        | none => (s1, errorId)
      | none => (s1, errorId)
    else (s1, errorId)

/-- Heartbeat staleness tier computed by `monitor_system_health`. -/
def heartbeatStatus (age : Int) : String :=
  if age < 60 then "ok" else if age < 180 then "late" else "missing"

/-- A component counts as inactive when its heartbeat tier is "missing" or
its state is "inactive". -/
def isInactive (now : Int) (c : Component) : Bool :=
  heartbeatStatus (now - c.last_heartbeat) == "missing" || c.state == "inactive"

/-- A component counts as an error component when its state is "error". -/
def isError (c : Component) : Bool :=
  c.state == "error"

/-- An error-log entry is recent when it has a timestamp less than 60
seconds old. -/
def isRecent (now : Int) (e : ErrorEntry) : Bool :=
  match e.timestamp with
  | some ts => decide (now - ts < 60)
  | none => false

/-- The health snapshot returned by `monitor_system_health` (the fields the
claims read). -/
structure HealthStatus where
  system_state : String
  status : String
  health_score : Int
  recent_errors : Nat
  inactive_components : List String
  error_components : List String
  deriving Repr, DecidableEq

/-- `monitor_system_health`: classifies every component, counts recent
errors, derives the status tier and the 0–100 health score, then (unless
the system is shutting down) folds the computed status back into
`system_state`.  The returned snapshot carries the pre-update
`system_state`, as in the source. -/
def monitorSystemHealth (s : SPState) (now : Int) : HealthStatus × SPState :=
  let inactive :=
    (s.component_states.filter (fun p => isInactive now p.2)).map (fun p => p.1)
  let errors :=
    (s.component_states.filter (fun p => isError p.2)).map (fun p => p.1)
  let recent := (s.error_log.filter (isRecent now)).length
  let status1 := if errors ≠ [] then "degraded" else "healthy"
  let status := if errors.length > 1 ∨ recent > errorsPerMinute then "critical"
                else status1
  let score : Int :=
    max 0 (min 100
      (100 - 15 * (inactive.length : Int) - 20 * (errors.length : Int)
           - 5 * (recent : Int)))
  let hs : HealthStatus :=
    { system_state := s.system_state, status := status, health_score := score,
      recent_errors := recent, inactive_components := inactive,
      error_components := errors }
  let s' :=
    if s.system_state ≠ "shutting_down" then
      if status = "critical" ∧ s.system_state ≠ "critical" then
        updateSystemState s "critical" now
      else if status = "degraded" ∧ s.system_state = "stable" then
        updateSystemState s "degraded" now
      else if status = "healthy" ∧ s.system_state ≠ "stable" then
        updateSystemState s "stable" now
      else s
    else s
  (hs, s')

/-- The warning record appended when `save_system_state` fails; the source
dict has no "timestamp" key, so the entry never counts as recent. -/
def saveFailureEntry : ErrorEntry :=
  { component := some "self_preservation", severity := some "warning",
    timestamp := none }

/-- `save_system_state`, with the file-write outcome as an argument: on
success the save timer is reset; on failure a warning record is appended
and the timer is left alone. -/
def saveSystemState (s : SPState) (now : Int) (writeOk : Bool) :
    SPState × Bool :=
  if writeOk then ({ s with last_state_save := now }, true)
  else ({ s with error_log := s.error_log ++ [saveFailureEntry] }, false)

/-- `safe_shutdown`: sets the shutdown flag, saves state, stops the monitor
if active, and moves `system_state` to "shutting_down". -/
def safeShutdown (s : SPState) (now : Int) (writeOk : Bool) : SPState × Bool :=
  let s1 := { s with shutdown_requested := true }
  let (s2, saveOk) := saveSystemState s1 now writeOk
  let s3 := if s2.monitoring_active then (stopMonitoring s2).1 else s2
  (updateSystemState s3 "shutting_down" now, saveOk)

/-- The parsed content of a backup artifact (`state_data`); each field the
restore path reads is optional because the source uses `.get` with a
default.  `error_count` is stored by `save_system_state` but never read
back. -/
structure ArtifactData where
  system_state : Option String
  component_states : Option (List (String × Component))
  recovery_counters : Option RecoveryCounters
  timestamp : Option Int
  error_count : Option Nat
  deriving Repr, DecidableEq

/-- Outcome of locating and reading the backup artifact. -/
inductive LoadOutcome where
  | noBackup
  | ioError
  | ok (d : ArtifactData)
  deriving Repr, DecidableEq

/-- The warning record appended when `restore_system_state` fails while
reading the artifact; again the source dict has no "timestamp" key. -/
def restoreFailureEntry : ErrorEntry :=
  { component := some "self_preservation", severity := some "warning",
    timestamp := none }

/-- `restore_system_state`: with no artifact available it returns an error
before the try-block (no log entry); a read/parse failure appends a warning
record; on success exactly `system_state`, `component_states` and
`recovery_counters` are replaced (with the source's `.get` defaults). -/
def restoreSystemState (s : SPState) (load : LoadOutcome) : SPState × Bool :=
  match load with
  | .noBackup => (s, false)
  | .ioError => ({ s with error_log := s.error_log ++ [restoreFailureEntry] }, false)
  | .ok d =>
    ({ s with system_state := d.system_state.getD "stable",
              component_states := d.component_states.getD [],
              recovery_counters := d.recovery_counters.getD ⟨0, 0, []⟩ }, true)

/-- A subtask dict as produced by `decompose_goal`. -/
structure Subtask where
  id : String
  description : String
  status : String
  completed : Bool
  completed_at : Option Int
  deriving Repr, DecidableEq

/-- A goal dict as produced by `set_goal` (`type` is `gtype` here; the
optional `completed_at`/`updated_at` keys only appear after updates). -/
structure Goal where
  id : String
  description : String
  gtype : String
  priority : Int
  status : String
  progress : ℚ
  created_at : Int
  deadline : Option String
  subtasks : List Subtask
  dependencies : List String
  review_count : Nat
  last_reviewed : Option Int
  completed_at : Option Int
  updated_at : Option Int
  deriving Repr, DecidableEq

/-- The mutable state of a `GoalSystem` instance. -/
structure GState where
  goals : List Goal
  completed_goals : List Goal
  next_review_time : Int
  deriving Repr, DecidableEq

/-- The recognised goal types (keys of `self.goal_types`). -/
def goalTypes : List String :=
  ["knowledge_acquisition", "skill_development", "problem_solving", "creation",
   "optimization", "maintenance", "exploration", "assistance"]

/-- `config.get("min_active_goals", 3)` with the default config. -/
def minActiveGoals : Nat := 3

/-- `config.get("review_interval_hours", 1)` with the default config. -/
def reviewIntervalHours : Int := 1

/-- `get_goal`: search the active list first, then the completed list. -/
def getGoal (s : GState) (gid : String) : Option Goal :=
  match s.goals.find? (fun g => g.id == gid) with
  | some g => some g
  | none => s.completed_goals.find? (fun g => g.id == gid)

/-- Apply `f` to the first goal with the given id in a list (Python mutates
the single object returned by `get_goal`). -/
def modifyFirst (l : List Goal) (gid : String) (f : Goal → Goal) : List Goal :=
  match l with
  | [] => []
  | g :: gs => if g.id == gid then f g :: gs else g :: modifyFirst gs gid f

/-- Mutation of the object returned by `get_goal`: the active list is
searched first, mirroring the lookup order. -/
def modifyGoal (s : GState) (gid : String) (f : Goal → Goal) : GState :=
  if s.goals.any (fun g => g.id == gid) then
    { s with goals := modifyFirst s.goals gid f }
  else
    { s with completed_goals := modifyFirst s.completed_goals gid f }

/-- `self.goals.remove(goal)` under unique ids: drop the first goal with the
given id. -/
def removeFirstId (l : List Goal) (gid : String) : List Goal :=
  match l with
  | [] => []
  | g :: gs => if g.id == gid then gs else g :: removeFirstId gs gid

/-- `set_goal`: validation error (modelled as `none`) on an empty
description; an unknown type silently falls back to
"knowledge_acquisition"; the priority is clamped to [1, 5]; the id encodes
the creation time and the current active count. -/
def setGoal (s : GState) (description gtype : String) (priority : Int)
    (deadline : Option String) (now : Int) : GState × Option Goal :=
  if description = "" then (s, none)
  else
    let gtype1 := if gtype ∈ goalTypes then gtype else "knowledge_acquisition"
    let priority1 := max 1 (min 5 priority)
    let gid := "goal_" ++ toString now ++ "_" ++ toString s.goals.length
    let goal : Goal :=
      { id := gid, description := description, gtype := gtype1,
        priority := priority1, status := "active", progress := 0,
        created_at := now, deadline := deadline, subtasks := [],
        dependencies := [], review_count := 0, last_reviewed := none,
        completed_at := none, updated_at := none }
    ({ s with goals := s.goals ++ [goal] }, some goal)

/-- The four template subtask descriptions per goal type (presentation
strings from `decompose_goal`). -/
def templateDescs (gtype description : String) : List String :=
  if gtype = "knowledge_acquisition" then
    ["「" ++ description ++ "」に関する基本情報を調査",
     "「" ++ description ++ "」の主要な概念を理解",
     "「" ++ description ++ "」に関連する実例を確認",
     "「" ++ description ++ "」について知識ベースを更新"]
  else if gtype = "skill_development" then
    ["「" ++ description ++ "」に必要な基礎知識を獲得",
     "「" ++ description ++ "」の基本手順を学習",
     "「" ++ description ++ "」の練習と実践",
     "「" ++ description ++ "」の評価と改善"]
  else if gtype = "problem_solving" then
    ["「" ++ description ++ "」問題の詳細分析",
     "「" ++ description ++ "」解決策の複数案検討",
     "「" ++ description ++ "」最適解決策の選択",
     "「" ++ description ++ "」解決策の実行と検証"]
  else if gtype = "creation" then
    ["「" ++ description ++ "」の要件定義",
     "「" ++ description ++ "」の設計",
     "「" ++ description ++ "」の実装または作成",
     "「" ++ description ++ "」のテストと改善"]
  else if gtype = "optimization" then
    ["「" ++ description ++ "」の現状分析",
     "「" ++ description ++ "」の改善点特定",
     "「" ++ description ++ "」の最適化実施",
     "「" ++ description ++ "」の最適化効果測定"]
  else
    ["「" ++ description ++ "」の調査",
     "「" ++ description ++ "」の計画立案",
     "「" ++ description ++ "」の実行",
     "「" ++ description ++ "」の評価"]

/-- Build the subtask dicts with ids `_sub1` … `_sub4`. -/
def mkSubtasks (gid : String) (descs : List String) : List Subtask :=
  descs.enum.map (fun p =>
    { id := gid ++ "_sub" ++ toString (p.1 + 1), description := p.2,
      status := "pending", completed := false, completed_at := none })

/-- `decompose_goal`: empty result for an unknown id; idempotent when
subtasks already exist; otherwise writes the type-templated subtasks into
the goal. -/
def decomposeGoal (s : GState) (gid : String) : GState × List Subtask :=
  match getGoal s gid with
  | none => (s, [])
  | some g =>
    if g.subtasks ≠ [] then (s, g.subtasks)
    else
      let subtasks := mkSubtasks gid (templateDescs g.gtype g.description)
      (modifyGoal s gid (fun g0 => { g0 with subtasks := subtasks }), subtasks)

/-- Marking of the listed subtask ids: every matching not-yet-completed
subtask is completed (first-write-wins, re-marking is a no-op). -/
def markSubtasks (subs : List Subtask) (ids : List String) (now : Int) :
    List Subtask :=
  ids.foldl (fun acc sid =>
    acc.map (fun st =>
      if st.id == sid && !st.completed then
        { st with status := "completed", completed := true,
                  completed_at := some now }
      else st)) subs

/-- `completed_count / total_count * 100`, used only when the subtask list
is non-empty. -/
def subtaskProgress (subs : List Subtask) : ℚ :=
  (((subs.filter (fun st => st.completed)).length : ℚ) / (subs.length : ℚ)) * 100

/-- Result dict of `update_progress`. -/
inductive UpdateResult where
  | notFound
  | alreadyCompleted
  | success (old_progress new_progress : ℚ) (completed : Bool)
  deriving Repr, DecidableEq

/-- `update_progress`: error for an unknown id; error and no state change
for an already-completed goal; otherwise the stored progress becomes the
clamped manual value, the listed subtasks are marked, and with a non-empty
subtask list the progress is raised to the computed completion fraction;
reaching 100 completes the goal and moves it from the active list to the
completed list. -/
def updateProgress (s : GState) (gid : String) (progress : ℚ)
    (completedSubs : List String) (now : Int) : GState × UpdateResult :=
  match getGoal s gid with
  | none => (s, .notFound)
  | some g =>
    if g.status = "completed" then (s, .alreadyCompleted)
    else
      let oldProgress := g.progress
      let p1 := max 0 (min 100 progress)
      let subs := markSubtasks g.subtasks completedSubs now
      let p2 := if subs ≠ [] then max p1 (subtaskProgress subs) else p1
      if p2 ≥ 100 then
        let g1 := { g with progress := p2, subtasks := subs,
                           status := "completed", completed_at := some now,
                           updated_at := some now }
        let s1 := { s with goals := removeFirstId s.goals gid,
                           completed_goals := s.completed_goals ++ [g1] }
        (s1, .success oldProgress p2 true)
      else
        let g1 := { g with progress := p2, subtasks := subs,
                           updated_at := some now }
        (modifyGoal s gid (fun _ => g1), .success oldProgress p2 false)

/-- Fuel bound for the cycle-detection DFS.  Along any chain of nested
recursive calls the visited ids are pairwise distinct and every one except
possibly the deepest resolves to a stored goal, so the nesting depth never
exceeds the number of stored goals plus two and this fuel is never
exhausted: the fueled function agrees with the source's unbounded
recursion. -/
def dfsFuel (s : GState) : Nat :=
  s.goals.length + s.completed_goals.length + 2

/-- `_has_circular_dependency`: depth-first search from `gid` for `target`
threading the mutable `visited` set (the source shares one set across the
whole traversal); an id already visited, or resolving to no goal, yields
`false` for that branch; finding `target` returns `true` immediately. -/
def dfsCircular (s : GState) (fuel : Nat) (gid target : String)
    (visited : List String) : Bool × List String :=
  match fuel with
  | 0 => (false, visited)
  | fuel' + 1 =>
    if gid ∈ visited then (false, visited)
    else
      let v := gid :: visited
      if gid = target then (true, v)
      else
        match getGoal s gid with
        | none => (false, v)
        | some g =>
          g.dependencies.foldl (fun acc d =>
            if acc.1 then acc else dfsCircular s fuel' d target acc.2) (false, v)

/-- Top-level entry of the cycle check, starting with an empty visited set. -/
def hasCircularDependency (s : GState) (gid target : String) : Bool :=
  (dfsCircular s (dfsFuel s) gid target []).1

/-- The mutation performed by a successful `add_dependency`: append the
dependency id to the goal's dependency list. -/
def appendDep (depId : String) : Goal → Goal :=
  fun g0 => { g0 with dependencies := g0.dependencies ++ [depId] }

/-- `add_dependency`: false if either goal is missing or the edge would
close a cycle (DFS from the dependency looking for the dependent goal);
true without change when the dependency is already recorded; otherwise the
dependency id is appended. -/
def addDependency (s : GState) (gid depId : String) : GState × Bool :=
  match getGoal s gid, getGoal s depId with
  | some g, some _ =>
    if hasCircularDependency s depId gid then (s, false)
    else if depId ∈ g.dependencies then (s, true)
    else (modifyGoal s gid (appendDep depId), true)
  | _, _ => (s, false)

/-- Stable insertion for the priority-descending sort: the new goal goes
after all already-placed goals of equal or higher priority. -/
def insertByPriority (g : Goal) : List Goal → List Goal
  | [] => [g]
  | h :: t => if h.priority < g.priority then g :: h :: t
              else h :: insertByPriority g t

/-- `get_active_goals()` without a count limit: the active goals sorted by
priority descending; Python's `sorted` is stable and this left-to-right
insertion sort computes the same ordering. -/
def getActiveGoals (s : GState) : List Goal :=
  s.goals.foldl (fun acc g => insertByPriority g acc) []

/-- The runtime errors the goal store can actually raise on the modelled
paths: subscripting the `None` returned by `get_goal` for a dangling
dependency id, and the unresolved module name `random` in `review_goals`
(goal_system.py never imports `random`). -/
inductive PyError where
  | typeError
  | nameError
  deriving Repr, DecidableEq

/-- The generator `any(self.get_goal(dep_id)["status"] != "completed" ...)`
with Python's short-circuit: a dependency id resolving to no goal raises a
TypeError at `None["status"]` unless an earlier dependency already produced
`True`. -/
def depsPending (s : GState) : List String → Except PyError Bool
  | [] => .ok false
  | d :: ds =>
    match getGoal s d with
    | none => .error .typeError
    | some g => if g.status ≠ "completed" then .ok true else depsPending s ds

/-- The task dict returned by `get_next_task`. -/
structure TaskInfo where
  goal_id : String
  subtask_id : String
  description : String
  goal_description : String
  priority : Int
  goal_type : String
  deriving Repr, DecidableEq

/-- The loop of `get_next_task` over the snapshot of sorted active goals,
threading the live store (auto-decomposition mutates it). -/
def getNextTaskLoop (s : GState) :
    List Goal → Except PyError (GState × Option TaskInfo)
  | [] => .ok (s, none)
  | g :: gs =>
    match depsPending s g.dependencies with
    | .error e => .error e
    | .ok true => getNextTaskLoop s gs
    | .ok false =>
      let p := if g.subtasks = [] then decomposeGoal s g.id else (s, g.subtasks)
      match p.2.find? (fun st => !st.completed) with
      | some st =>
        .ok (p.1, some { goal_id := g.id, subtask_id := st.id,
                         description := st.description,
                         goal_description := g.description,
                         priority := g.priority, goal_type := g.gtype })
      | none => getNextTaskLoop p.1 gs

/-- `get_next_task`: first incomplete subtask of the highest-priority
active goal whose dependencies are all completed, decomposing on demand. -/
def getNextTask (s : GState) : Except PyError (GState × Option TaskInfo) :=
  getNextTaskLoop s (getActiveGoals s)

/-- A goal suggestion dict from `suggest_new_goals`. -/
structure Suggestion where
  stype : String
  description : String
  priority : Int
  deriving Repr, DecidableEq

/-- `suggest_new_goals`: two starter suggestions when fewer than
`min_active_goals` goals are active; an optimization suggestion unless an
optimization goal was already created today (`todayStart` is midnight); a
maintenance suggestion for large stores. -/
def suggestNewGoals (s : GState) (todayStart : Int) : List Suggestion :=
  let base : List Suggestion :=
    if s.goals.length < minActiveGoals then
      [{ stype := "knowledge_acquisition",
         description := "知識ベースの一般知識を拡充する", priority := 3 },
       { stype := "skill_development",
         description := "より効率的な情報検索手法を開発する", priority := 4 }]
    else []
  let optToday := (s.goals ++ s.completed_goals).find? (fun g =>
    g.gtype == "optimization" && decide (todayStart < g.created_at))
  let base1 := base ++
    (if optToday.isNone then
      [{ stype := "optimization",
         description := "知識処理パイプラインの最適化", priority := 3 }]
     else [])
  base1 ++
    (if s.goals.length > 10 || s.completed_goals.length > 20 then
      [{ stype := "maintenance",
         description := "未使用の古い知識をレビューして整理する", priority := 2 }]
     else [])

/-- The counters accumulated by `review_goals`. -/
structure ReviewCounts where
  reviewed : Nat
  priorityAdj : Nat
  stalled : Nat
  suggested : Nat
  removed : Nat
  deriving Repr, DecidableEq

/-- Drop the dependency ids that resolve to no goal or to a completed goal
(the source iterates a copy and removes from the live list). -/
def cleanDeps (s : GState) (deps : List String) : List String :=
  deps.filter (fun dep =>
    match getGoal s dep with
    | none => false
    | some dg => !(dg.status == "completed"))

/-- Write a goal value back over the first active goal with its id. -/
def writeGoal (s : GState) (gid : String) (g : Goal) : GState :=
  { s with goals := modifyFirst s.goals gid (fun _ => g) }

/-- One iteration of the review loop for the snapshot id `gid`: bump the
review counters, apply the stalled-goal policy (hard removal past five
reviews, otherwise a priority decrement), then drop stale dependency
references against the live store. -/
def reviewStep (now : Int) (acc : GState × ReviewCounts) (gid : String) :
    GState × ReviewCounts :=
  let s := acc.1
  let c := acc.2
  match s.goals.find? (fun g => g.id == gid) with
  | none => (s, c)
  | some g =>
    let g1 := { g with review_count := g.review_count + 1,
                       last_reviewed := some now }
    if g1.review_count > 3 ∧ g1.progress < 30 then
      if g1.review_count > 5 then
        ({ s with goals := removeFirstId s.goals gid },
         { c with stalled := c.stalled + 1, removed := c.removed + 1,
                  reviewed := c.reviewed + 1 })
      else
        let adj : Nat := if g1.priority > 1 then 1 else 0
        let g2 := if g1.priority > 1 then { g1 with priority := g1.priority - 1 }
                  else g1
        let s1 := writeGoal s gid g2
        (writeGoal s1 gid { g2 with dependencies := cleanDeps s1 g2.dependencies },
         { c with stalled := c.stalled + 1, priorityAdj := c.priorityAdj + adj,
                  reviewed := c.reviewed + 1 })
    else
      let s1 := writeGoal s gid g1
      (writeGoal s1 gid { g1 with dependencies := cleanDeps s1 g1.dependencies },
       { c with reviewed := c.reviewed + 1 })

/-- Result of `review_goals`. -/
inductive ReviewResult where
  | skipped
  | success (c : ReviewCounts)
  deriving Repr, DecidableEq

/-- `review_goals`: a skip before the review time; otherwise the per-goal
review loop runs over a snapshot of the active ids, and then the suggestion
loop evaluates `random.random()` — `goal_system.py` never imports `random`,
so the first iteration raises `NameError`; only an empty suggestion list
lets the review complete and reset the review timer. -/
def reviewGoals (s : GState) (now todayStart : Int) :
    Except PyError (GState × ReviewResult) :=
  if now < s.next_review_time then .ok (s, .skipped)
  else
    let snapshot := s.goals.map (fun g => g.id)
    let p := snapshot.foldl (reviewStep now) (s, ⟨0, 0, 0, 0, 0⟩)
    let suggestions := suggestNewGoals p.1 todayStart
    if suggestions ≠ [] then .error .nameError
    else
      .ok ({ p.1 with next_review_time := now + reviewIntervalHours * 3600 },
           .success p.2)

/-! Spec-side counting functions, written from the specification's wording
(inactive: heartbeat age at least 180 seconds or state "inactive"; error:
state "error"; recent: error-log timestamp within the last 60 seconds),
for comparison against the health computation translated from the code. -/

/-- Number of components the specification calls inactive. -/
def specInactiveCount (s : SPState) (now : Int) : Nat :=
  s.component_states.countP (fun p =>
    decide (180 ≤ now - p.2.last_heartbeat) || p.2.state == "inactive")

/-- Number of components the specification calls error components. -/
def specErrorCount (s : SPState) : Nat :=
  s.component_states.countP (fun p => p.2.state == "error")

/-- Number of error-log entries with a timestamp in the last 60 seconds. -/
def specRecentErrors (s : SPState) (now : Int) : Nat :=
  s.error_log.countP (fun e =>
    match e.timestamp with
    | some ts => decide (now - ts < 60)
    | none => false)

/-- The progress value `update_progress` stores for a live goal: the
maximum of the clamped manual value and (with a non-empty subtask list
after marking) the computed completion fraction. -/
def newProgressOf (g : Goal) (p : ℚ) (cs : List String) (now : Int) : ℚ :=
  let subs := markSubtasks g.subtasks cs now
  if subs ≠ [] then max (max 0 (min 100 p)) (subtaskProgress subs)
  else max 0 (min 100 p)

/-! Concrete scenario states used by the counterexamples and witnesses. -/

/-- C3 scenario: a fresh monitor with safety-critical component
"safety_filter" and component "comp_b" registered with fresh heartbeats,
then "safety_filter" moved into the error state. -/
def c3State : SPState :=
  let s0 := (startMonitoring (initialSP 0)).1
  let s1 := registerComponent s0 "safety_filter" "active" 1000
  let s2 := registerComponent s1 "comp_b" "active" 1000
  (updateComponentState s2 "safety_filter" "error" 1000).1

/-- C7 scenario: a monitor with one registered component, shut down
cooperatively at time 100. -/
def c7Down : SPState :=
  let s0 := (startMonitoring (initialSP 0)).1
  let s1 := registerComponent s0 "worker" "active" 10
  (safeShutdown s1 100 true).1

/-- A fully populated critical error report for the C7 counterexample. -/
def c7Report : ErrorReport :=
  { component := some "worker", error_type := some "crash",
    description := some "boom", severity := some "critical",
    requires_immediate_recovery := false, recovery_type := none }

/-- An active goal at 50% progress with no subtasks (C2 scenario). -/
def c2Goal : Goal :=
  { id := "goal_100_0", description := "d", gtype := "knowledge_acquisition",
    priority := 3, status := "active", progress := 50, created_at := 100,
    deadline := none, subtasks := [], dependencies := [], review_count := 0,
    last_reviewed := none, completed_at := none, updated_at := none }

/-- C2 scenario store. -/
def c2Store : GState :=
  { goals := [c2Goal], completed_goals := [], next_review_time := 3700 }

/-- A completed goal for the C4 witness. -/
def c4Goal : Goal :=
  { id := "goal_50_0", description := "done", gtype := "maintenance",
    priority := 2, status := "completed", progress := 100, created_at := 50,
    deadline := none, subtasks := [], dependencies := [], review_count := 1,
    last_reviewed := none, completed_at := some 90, updated_at := some 90 }

/-- C4 witness store: one completed goal, no active goals. -/
def c4Store : GState :=
  { goals := [], completed_goals := [c4Goal], next_review_time := 0 }

/-- Two active goals for the C5 witness. -/
def c5GoalA : Goal :=
  { id := "goal_10_0", description := "a", gtype := "creation",
    priority := 3, status := "active", progress := 0, created_at := 10,
    deadline := none, subtasks := [], dependencies := [], review_count := 0,
    last_reviewed := none, completed_at := none, updated_at := none }

/-- Second goal of the C5 witness store. -/
def c5GoalB : Goal :=
  { id := "goal_20_1", description := "b", gtype := "creation",
    priority := 3, status := "active", progress := 0, created_at := 20,
    deadline := none, subtasks := [], dependencies := [], review_count := 0,
    last_reviewed := none, completed_at := none, updated_at := none }

/-- C5 witness store. -/
def c5Store : GState :=
  { goals := [c5GoalA, c5GoalB], completed_goals := [], next_review_time := 0 }

/-- C5 witness store after the successful `add_dependency` call. -/
def c5AfterAdd : GState := (addDependency c5Store "goal_10_0" "goal_20_1").1

/-- C9 scenario: an active goal whose dependency list holds an id that no
longer resolves to any stored goal (as left behind when `review_goals`
hard-deletes a stalled goal another goal depends on). -/
def c9Goal : Goal :=
  { id := "goal_30_0", description := "blocked", gtype := "exploration",
    priority := 3, status := "active", progress := 0, created_at := 30,
    deadline := none, subtasks := [], dependencies := ["goal_gone_0"],
    review_count := 0, last_reviewed := none, completed_at := none,
    updated_at := none }

/-- C9 scenario store. -/
def c9Store : GState :=
  { goals := [c9Goal], completed_goals := [], next_review_time := 0 }

/-- C6 scenario: a fresh goal store with no goals whose review time has
arrived. -/
def c6Store : GState :=
  { goals := [], completed_goals := [], next_review_time := 0 }

/-! Helper lemmas. -/

/-- The component-status classification of `monitor_system_health` marks a
component inactive exactly when its heartbeat is at least 180 seconds old
or its state is "inactive". -/
theorem isInactive_iff (now : Int) (c : Component) :
    isInactive now c =
      (decide (180 ≤ now - c.last_heartbeat) || c.state == "inactive") := by
  unfold isInactive heartbeatStatus
  by_cases h1 : now - c.last_heartbeat < 60
  · have h2 : ¬ (180 ≤ now - c.last_heartbeat) := by omega
    simp [h1, h2]
  · by_cases h2 : now - c.last_heartbeat < 180
    · have h3 : ¬ (180 ≤ now - c.last_heartbeat) := by omega
      simp [h1, h2, h3]
    · have h3 : 180 ≤ now - c.last_heartbeat := by omega
      simp [h1, h2, h3]

/-- The inactive-component list built by the health computation has the
spec-side inactive count as its length. -/
theorem inactive_count_eq (s : SPState) (now : Int) :
    ((s.component_states.filter (fun p => isInactive now p.2)).map
      (fun p => p.1)).length = specInactiveCount s now := by
  rw [List.length_map, specInactiveCount, List.countP_eq_length_filter]
  congr 1
  exact List.filter_congr (fun p _ => isInactive_iff now p.2)

/-- The error-component list built by the health computation has the
spec-side error count as its length. -/
theorem error_count_eq (s : SPState) :
    ((s.component_states.filter (fun p => isError p.2)).map
      (fun p => p.1)).length = specErrorCount s := by
  rw [List.length_map, specErrorCount, List.countP_eq_length_filter]
  congr 1

/-- The recent-error count of the health computation equals the spec-side
count. -/
theorem recent_count_eq (s : SPState) (now : Int) :
    (s.error_log.filter (isRecent now)).length = specRecentErrors s now := by
  rw [specRecentErrors, List.countP_eq_length_filter]
  rfl

/-! Claim theorems. -/

/-- C1: for every registry state and evaluation time, the health score
returned by `monitor_system_health` equals 100 minus 15 per inactive
component (heartbeat age at least 180 seconds or state "inactive"), minus
20 per component in state "error", minus 5 per error-log entry stamped
within the last 60 seconds, clamped to [0, 100]. -/
theorem health_score_formula (s : SPState) (now : Int) :
    (monitorSystemHealth s now).1.health_score =
      max 0 (min 100 (100 - 15 * (specInactiveCount s now : Int)
        - 20 * (specErrorCount s : Int) - 5 * (specRecentErrors s now : Int))) := by
  have hchar : (monitorSystemHealth s now).1.health_score =
      max 0 (min 100
        (100 - 15 * (((s.component_states.filter (fun p => isInactive now p.2)).map
                        (fun p => p.1)).length : Int)
             - 20 * (((s.component_states.filter (fun p => isError p.2)).map
                        (fun p => p.1)).length : Int)
             - 5 * ((s.error_log.filter (isRecent now)).length : Int))) := rfl
  rw [hchar, inactive_count_eq, error_count_eq, recent_count_eq]

/-- C2 counterexample: on an active goal with no subtasks and stored
progress 50, `update_progress` with a lower manual value 10 decreases the
stored progress to 10, refuting the claimed monotonicity. -/
theorem progress_can_decrease :
    c2Goal.progress = 50 ∧
    (updateProgress c2Store "goal_100_0" 10 [] 200).2 =
      .success 50 10 false ∧
    (getGoal (updateProgress c2Store "goal_100_0" 10 [] 200).1
      "goal_100_0").map (fun g => g.progress) = some 10 ∧
    (10 : ℚ) < 50 := by
  refine ⟨rfl, ?_, ?_, by norm_num⟩ <;> decide

/-- C3 counterexample: in the two-component scenario with the
safety-critical component in the error state, `monitor_system_health`
reports status "degraded", not the claimed "critical" (critical requires
more than one error component or more than five recent errors). -/
theorem error_scenario_not_critical :
    ¬ (monitorSystemHealth c3State 1000).1.status = "critical" := by
  decide

/-- C3 amended: in that scenario the evaluation reports status "degraded"
and health score 70, which is at most 80. -/
theorem error_scenario_degraded :
    (monitorSystemHealth c3State 1000).1.status = "degraded" ∧
    (monitorSystemHealth c3State 1000).1.health_score = 70 ∧
    (monitorSystemHealth c3State 1000).1.health_score ≤ 80 := by
  refine ⟨?_, ?_, by decide⟩ <;> decide

/-- C6: on a fresh goal store whose review interval has elapsed, the
non-skipped review path of `review_goals` does not complete: the
suggestion loop evaluates `random.random()` although `goal_system.py`
never imports `random`, raising `NameError` instead of returning the
claimed success result. -/
theorem review_raises_name_error :
    reviewGoals c6Store 0 (-1) = .error .nameError := by
  rfl

/-- C7 counterexample: after a cooperative shutdown has set `system_state`
to "shutting_down", a critical-severity `report_error` still moves
`system_state` to "degraded" — the marker is not terminal for every
automatic transition path. -/
theorem shutdown_marker_not_terminal :
    c7Down.system_state = "shutting_down" ∧
    (reportError c7Down c7Report 200 0).1.system_state = "degraded" := by
  constructor <;> decide

/-- C7 amended: the suppression does hold for the health-recomputation
path — when `system_state` is "shutting_down", `monitor_system_health`
leaves the state (in particular `system_state`) completely unchanged. -/
theorem shutdown_suppresses_health_recomputation (s : SPState) (now : Int)
    (h : s.system_state = "shutting_down") :
    (monitorSystemHealth s now).2 = s := by
  unfold monitorSystemHealth
  simp [h]

/-- C7 amended, witness: the suppression at the concrete post-shutdown
state. -/
theorem shutdown_suppresses_health_recomputation_witness :
    (monitorSystemHealth c7Down 500).2 = c7Down :=
  shutdown_suppresses_health_recomputation c7Down 500 rfl

/-- C8: `update_component_state` and `component_heartbeat` on a name that
is not registered both fail by returning `false` and leave the state (in
particular the registry) untouched — no entry is created. -/
theorem unknown_component_rejected (s : SPState) (name state : String)
    (t₁ t₂ : Int) (h : s.component_states.lookup name = none) :
    updateComponentState s name state t₁ = (s, false) ∧
    componentHeartbeat s name t₂ = (s, false) := by
  constructor
  · unfold updateComponentState
    rw [h]
  · unfold componentHeartbeat
    rw [h]

/-- C8 witness: an unregistered name on a fresh instance. -/
theorem unknown_component_rejected_witness :
    updateComponentState (initialSP 0) "ghost" "error" 5 =
      (initialSP 0, false) ∧
    componentHeartbeat (initialSP 0) "ghost" 6 = (initialSP 0, false) :=
  unknown_component_rejected (initialSP 0) "ghost" "error" 5 6 rfl

/-- C9: on a store where an active goal's dependency list holds an id that
resolves to no stored goal, `get_next_task` raises a TypeError
(`None["status"]`) instead of returning "no work available": the code
fails on exactly the state the claim requires it to survive. -/
theorem next_task_type_error :
    getNextTask c9Store = .error .typeError := by
  rfl

/-- C10: a successful restore replaces exactly `system_state`,
`component_states` and `recovery_counters` (with the source's defaults for
missing artifact fields), leaves every other field — in particular the
error log — unchanged, ignores the artifact's `error_count`, and a failed
restore leaves those three fields unchanged as well. -/
theorem restore_replaces_exactly_three_fields (s : SPState)
    (d : ArtifactData) (n : Option Nat) :
    ((restoreSystemState s (.ok d)).1.system_state =
        d.system_state.getD "stable" ∧
      (restoreSystemState s (.ok d)).1.component_states =
        d.component_states.getD [] ∧
      (restoreSystemState s (.ok d)).1.recovery_counters =
        d.recovery_counters.getD ⟨0, 0, []⟩ ∧
      (restoreSystemState s (.ok d)).1.error_log = s.error_log ∧
      (restoreSystemState s (.ok d)).1.monitoring_active =
        s.monitoring_active ∧
      (restoreSystemState s (.ok d)).1.shutdown_requested =
        s.shutdown_requested ∧
      (restoreSystemState s (.ok d)).1.last_state_save = s.last_state_save ∧
      restoreSystemState s (.ok { d with error_count := n }) =
        restoreSystemState s (.ok d)) ∧
    ((restoreSystemState s .ioError).1.system_state = s.system_state ∧
      (restoreSystemState s .ioError).1.component_states =
        s.component_states ∧
      (restoreSystemState s .ioError).1.recovery_counters =
        s.recovery_counters ∧
      (restoreSystemState s .ioError).2 = false) ∧
    restoreSystemState s .noBackup = (s, false) :=
  ⟨⟨rfl, rfl, rfl, rfl, rfl, rfl, rfl, rfl⟩, ⟨rfl, rfl, rfl, rfl⟩, rfl⟩

/-- The subtask completion fraction never exceeds 100 for a non-empty
subtask list. -/
theorem subtaskProgress_le (subs : List Subtask) (h : subs ≠ []) :
    subtaskProgress subs ≤ 100 := by
  unfold subtaskProgress
  have hlen : 0 < subs.length := List.length_pos.mpr h
  have hb : (0 : ℚ) < (subs.length : ℚ) := by exact_mod_cast hlen
  have hle : (((subs.filter (fun st => st.completed)).length : ℚ)) ≤
      ((subs.length : ℚ)) := by
    exact_mod_cast List.length_filter_le _ _
  have h1 : ((subs.filter (fun st => st.completed)).length : ℚ) /
      (subs.length : ℚ) ≤ 1 := (div_le_one hb).mpr hle
  calc ((subs.filter (fun st => st.completed)).length : ℚ) /
        (subs.length : ℚ) * 100
      ≤ 1 * 100 := mul_le_mul_of_nonneg_right h1 (by norm_num)
    _ = 100 := one_mul _

/-- C2 amended: the stored progress always stays within [0, 100], but each
successful `update_progress` stores exactly the maximum of the clamped
manual value and the subtask-derived fraction — a value that is lower than
the previous progress when the reported manual progress is lower and the
subtask fraction does not compensate. -/
theorem progress_clamped_max_rule (s : GState) (gid : String) (p : ℚ)
    (cs : List String) (now : Int) (g : Goal)
    (hg : getGoal s gid = some g) (hact : ¬ g.status = "completed") :
    (updateProgress s gid p cs now).2 =
      .success g.progress (newProgressOf g p cs now)
        (decide (newProgressOf g p cs now ≥ 100)) ∧
    0 ≤ newProgressOf g p cs now ∧ newProgressOf g p cs now ≤ 100 := by
  refine ⟨?_, ?_, ?_⟩
  · simp only [updateProgress, hg, if_neg hact, newProgressOf]
    split <;> split <;>
      first
        | (rename_i h; rw [decide_eq_true h])
        | (rename_i h; rw [decide_eq_false h])
  · unfold newProgressOf
    by_cases h : markSubtasks g.subtasks cs now = []
    · simp only [h, ne_eq, not_true_eq_false, if_false]
      exact le_max_left 0 _
    · simp only [ne_eq, h, not_false_eq_true, if_true]
      exact le_trans (le_max_left 0 _) (le_max_left _ _)
  · unfold newProgressOf
    by_cases h : markSubtasks g.subtasks cs now = []
    · simp only [h, ne_eq, not_true_eq_false, if_false]
      exact max_le (by norm_num) (min_le_left _ _)
    · simp only [ne_eq, h, not_false_eq_true, if_true]
      exact max_le (max_le (by norm_num) (min_le_left _ _))
        (subtaskProgress_le _ h)

/-- C2 amended, witness: the amended rule evaluated at the concrete
decreasing update of the counterexample. -/
theorem progress_clamped_max_rule_witness :
    (updateProgress c2Store "goal_100_0" 10 [] 200).2 =
      .success c2Goal.progress (newProgressOf c2Goal 10 [] 200)
        (decide (newProgressOf c2Goal 10 [] 200 ≥ 100)) ∧
    0 ≤ newProgressOf c2Goal 10 [] 200 ∧
    newProgressOf c2Goal 10 [] 200 ≤ 100 :=
  progress_clamped_max_rule c2Store "goal_100_0" 10 [] 200 c2Goal rfl
    (by decide)

/-- A list containing no goal with the given id has no `find?` hit for it. -/
theorem find?_eq_none_of_not_mem_ids (l : List Goal) (gid : String)
    (h : gid ∉ l.map (fun g => g.id)) :
    l.find? (fun g => g.id == gid) = none := by
  apply List.find?_eq_none.mpr
  intro x hx hbeq
  exact h (List.mem_map.mpr ⟨x, hx, eq_of_beq hbeq⟩)

/-- A list containing a goal with the given id has a `find?` hit that is a
member of the list. -/
theorem find?_mem_of_mem_ids (l : List Goal) (gid : String)
    (h : gid ∈ l.map (fun g => g.id)) :
    ∃ g, l.find? (fun g0 => g0.id == gid) = some g ∧ g ∈ l := by
  obtain ⟨x, hx, hxid⟩ := List.mem_map.mp h
  have hsome : (l.find? (fun g0 => g0.id == gid)).isSome := by
    rw [List.find?_isSome]
    exact ⟨x, hx, by simp [hxid]⟩
  cases hfind : l.find? (fun g0 => g0.id == gid) with
  | none => rw [hfind] at hsome; cases hsome
  | some g => exact ⟨g, rfl, List.mem_of_find?_eq_some hfind⟩

/-- C4: in a well-formed store (unique ids across the two collections,
completed collection holding only completed goals), an `update_progress`
call on an id in the completed collection is rejected with the explicit
already-completed error and changes no state, and that goal id occurs
exactly once in the completed collection and never in the active one. -/
theorem completed_goal_update_rejected (s : GState) (gid : String) (p : ℚ)
    (cs : List String) (now : Int)
    (hnodup : ((s.goals ++ s.completed_goals).map (fun g => g.id)).Nodup)
    (hcomp : ∀ g ∈ s.completed_goals, g.status = "completed")
    (hmem : gid ∈ s.completed_goals.map (fun g => g.id)) :
    updateProgress s gid p cs now = (s, .alreadyCompleted) ∧
    (s.completed_goals.map (fun g => g.id)).count gid = 1 ∧
    gid ∉ s.goals.map (fun g => g.id) := by
  rw [List.map_append] at hnodup
  obtain ⟨h1, h2, hdisj⟩ := List.nodup_append.mp hnodup
  have hnotin : gid ∉ s.goals.map (fun g => g.id) := fun hin => hdisj hin hmem
  have hfind1 : s.goals.find? (fun g => g.id == gid) = none :=
    find?_eq_none_of_not_mem_ids _ _ hnotin
  obtain ⟨g, hfind2, hgmem⟩ := find?_mem_of_mem_ids _ _ hmem
  have hstatus : g.status = "completed" := hcomp g hgmem
  refine ⟨?_, List.count_eq_one_of_mem h2 hmem, hnotin⟩
  simp only [updateProgress, getGoal, hfind1, hfind2, if_pos hstatus]

/-- C4 witness: the rejection and the exactly-once membership at a
concrete store with one completed goal. -/
theorem completed_goal_update_rejected_witness :
    updateProgress c4Store "goal_50_0" 5 [] 200 = (c4Store, .alreadyCompleted) ∧
    (c4Store.completed_goals.map (fun g => g.id)).count "goal_50_0" = 1 ∧
    "goal_50_0" ∉ c4Store.goals.map (fun g => g.id) :=
  completed_goal_update_rejected c4Store "goal_50_0" 5 [] 200 (by decide)
    (by decide) (by decide)

/-- Once the DFS fold accumulator reports a hit, the rest of the fold is a
no-op (the source returns immediately on `True`). -/
theorem dfsFold_keep_true (s : GState) (n : Nat) (target : String) :
    ∀ (l : List String) (acc : Bool × List String), acc.1 = true →
      l.foldl (fun acc d =>
        if acc.1 then acc else dfsCircular s n d target acc.2) acc = acc := by
  intro l
  induction l with
  | nil => intro acc _; rfl
  | cons d ds ih =>
    intro acc h
    rw [List.foldl_cons]
    have hstep : (if acc.1 then acc else dfsCircular s n d target acc.2) = acc := by
      simp [h]
    rw [hstep]
    exact ih acc h

/-- Visiting the target node itself returns `true` at once. -/
theorem dfs_self (s : GState) (m : Nat) (x : String) (visited : List String)
    (h : x ∉ visited) : dfsCircular s (m + 1) x x visited = (true, x :: visited) := by
  simp [dfsCircular, h]

/-- When the DFS returns `false`, the target was never added to the
visited set: visiting the target returns `true` immediately. -/
theorem dfs_false_not_mem (s : GState) (target : String) :
    ∀ (fuel : Nat) (gid : String) (visited : List String),
      target ∉ visited → (dfsCircular s fuel gid target visited).1 = false →
      target ∉ (dfsCircular s fuel gid target visited).2 := by
  intro fuel
  induction fuel with
  | zero => intro gid visited h _; simpa [dfsCircular] using h
  | succ n ih =>
    intro gid visited hnm hfalse
    by_cases h1 : gid ∈ visited
    · simp only [dfsCircular, if_pos h1]
      exact hnm
    · by_cases h2 : gid = target
      · exfalso
        rw [h2] at hfalse
        rw [dfs_self s n target visited hnm] at hfalse
        exact Bool.noConfusion (show true = false from hfalse)
      · have hnm' : target ∉ gid :: visited := by
          intro hmem
          rcases List.mem_cons.mp hmem with h | h
          · exact h2 h.symm
          · exact hnm h
        cases hget : getGoal s gid with
        | none =>
          simp only [dfsCircular, if_neg h1, if_neg h2, hget]
          exact hnm'
        | some g =>
          revert hfalse
          simp only [dfsCircular, if_neg h1, if_neg h2, hget]
          have aux : ∀ (l : List String) (acc : Bool × List String),
              target ∉ acc.2 →
              (l.foldl (fun acc d =>
                if acc.1 then acc else dfsCircular s n d target acc.2) acc).1 =
                false →
              target ∉ (l.foldl (fun acc d =>
                if acc.1 then acc else dfsCircular s n d target acc.2) acc).2 := by
            intro l
            induction l with
            | nil => intro acc h _; exact h
            | cons d ds ihl =>
              intro acc hacc hf
              rw [List.foldl_cons] at hf ⊢
              by_cases ha : acc.1 = true
              · have hstep :
                    (if acc.1 then acc else dfsCircular s n d target acc.2) =
                      acc := by simp [ha]
                rw [hstep] at hf ⊢
                exact ihl acc hacc hf
              · have ha' : acc.1 = false := Bool.eq_false_iff.mpr ha
                have hstep :
                    (if acc.1 then acc else dfsCircular s n d target acc.2) =
                      dfsCircular s n d target acc.2 := by simp [ha']
                rw [hstep] at hf ⊢
                by_cases hr : (dfsCircular s n d target acc.2).1 = true
                · exfalso
                  rw [dfsFold_keep_true s n target ds _ hr] at hf
                  rw [hr] at hf
                  exact Bool.noConfusion hf
                · have hr' : (dfsCircular s n d target acc.2).1 = false :=
                    Bool.eq_false_iff.mpr hr
                  exact ihl _ (ih d acc.2 hacc hr') hf
          exact aux g.dependencies (false, gid :: visited) hnm'

/-- The DFS fold over a dependency list containing the target reports a
hit, provided the target was not visited before the fold started. -/
theorem dfsFold_finds (s : GState) (target : String) (m : Nat) :
    ∀ (l : List String) (acc : Bool × List String),
      target ∈ l → target ∉ acc.2 →
      (l.foldl (fun acc d =>
        if acc.1 then acc else dfsCircular s (m + 1) d target acc.2) acc).1 =
        true := by
  intro l
  induction l with
  | nil => intro acc h _; cases h
  | cons d ds ihl =>
    intro acc hmem hacc
    rw [List.foldl_cons]
    by_cases ha : acc.1 = true
    · have hstep :
          (if acc.1 then acc else dfsCircular s (m + 1) d target acc.2) =
            acc := by simp [ha]
      rw [hstep, dfsFold_keep_true s (m + 1) target ds acc ha]
      exact ha
    · have ha' : acc.1 = false := Bool.eq_false_iff.mpr ha
      have hstep :
          (if acc.1 then acc else dfsCircular s (m + 1) d target acc.2) =
            dfsCircular s (m + 1) d target acc.2 := by simp [ha']
      rw [hstep]
      rcases List.mem_cons.mp hmem with heq | hmem'
      · subst heq
        rw [dfs_self s m target acc.2 hacc]
        rw [dfsFold_keep_true s (m + 1) target ds _ rfl]
      · by_cases hr : (dfsCircular s (m + 1) d target acc.2).1 = true
        · rw [dfsFold_keep_true s (m + 1) target ds _ hr]
          exact hr
        · have hr' : (dfsCircular s (m + 1) d target acc.2).1 = false :=
            Bool.eq_false_iff.mpr hr
          exact ihl _ hmem' (dfs_false_not_mem s target (m + 1) d acc.2 hacc hr')

/-- Starting the DFS at a goal whose dependency list contains the target
reports a hit (with at least two units of fuel). -/
theorem dfs_finds_direct_dep (s : GState) (a b : String) (g : Goal) (m : Nat)
    (hg : getGoal s a = some g) (hb : b ∈ g.dependencies) :
    (dfsCircular s (m + 1 + 1) a b []).1 = true := by
  by_cases hab : a = b
  · subst hab
    rw [dfs_self s (m + 1) a [] (by simp)]
  · have h1 : a ∉ ([] : List String) := by simp
    simp only [dfsCircular, if_neg h1, if_neg hab, hg]
    exact dfsFold_finds s b m g.dependencies (false, [a]) hb
      (by simpa using fun h => hab h.symm)

/-- `_has_circular_dependency` reports a cycle whenever the target already
appears directly in the start goal's dependency list. -/
theorem hasCircular_of_direct_dep (s : GState) (a b : String) (g : Goal)
    (hg : getGoal s a = some g) (hb : b ∈ g.dependencies) :
    hasCircularDependency s a b = true := by
  unfold hasCircularDependency dfsFuel
  exact dfs_finds_direct_dep s a b g
    (s.goals.length + s.completed_goals.length) hg hb

/-- `_has_circular_dependency` from a goal to itself always reports a
cycle, so a self-dependency is always rejected. -/
theorem hasCircular_self_true (s : GState) (x : String) :
    hasCircularDependency s x x = true := by
  unfold hasCircularDependency dfsFuel
  rw [show s.goals.length + s.completed_goals.length + 2 =
      (s.goals.length + s.completed_goals.length + 1) + 1 from rfl]
  rw [dfs_self s _ x [] (by simp)]

/-- `modifyFirst` leaves a list without a matching id unchanged. -/
theorem modifyFirst_of_find?_none (l : List Goal) (gid : String)
    (f : Goal → Goal) (h : l.find? (fun g => g.id == gid) = none) :
    modifyFirst l gid f = l := by
  induction l with
  | nil => rfl
  | cons g gs ih =>
    rw [List.find?_cons] at h
    cases hp : (g.id == gid) with
    | true => rw [hp] at h; cases h
    | false =>
      rw [hp] at h
      unfold modifyFirst
      rw [if_neg (by simp [hp])]
      rw [ih h]

/-- `find?` after `modifyFirst` on the same id returns the modified first
hit, for an id-preserving modification. -/
theorem find?_modifyFirst_self (l : List Goal) (gid : String)
    (f : Goal → Goal) (hf : ∀ x, (f x).id = x.id) (g : Goal)
    (h : l.find? (fun g0 => g0.id == gid) = some g) :
    (modifyFirst l gid f).find? (fun g0 => g0.id == gid) = some (f g) := by
  induction l with
  | nil => cases h
  | cons g1 gs ih =>
    rw [List.find?_cons] at h
    cases hp : (g1.id == gid) with
    | true =>
      rw [hp] at h
      injection h with h'
      subst h'
      unfold modifyFirst
      rw [if_pos hp]
      rw [List.find?_cons]
      rw [show ((f g1).id == gid) = true by rw [hf g1]; exact hp]
    | false =>
      rw [hp] at h
      unfold modifyFirst
      rw [if_neg (by simp [hp])]
      rw [List.find?_cons]
      rw [hp]
      exact ih h

/-- `find?` for a different id is unaffected by an id-preserving
`modifyFirst`. -/
theorem find?_modifyFirst_other (l : List Goal) (gid x : String)
    (f : Goal → Goal) (hf : ∀ y, (f y).id = y.id) (hx : ¬ x = gid) :
    (modifyFirst l gid f).find? (fun g0 => g0.id == x) =
      l.find? (fun g0 => g0.id == x) := by
  induction l with
  | nil => rfl
  | cons g gs ih =>
    by_cases hp : (g.id == gid) = true
    · have hmf : modifyFirst (g :: gs) gid f = f g :: gs := by
        unfold modifyFirst
        rw [if_pos hp]
      rw [hmf, List.find?_cons, List.find?_cons]
      have hgid : g.id = gid := eq_of_beq hp
      have hnx : (g.id == x) = false := by
        rw [hgid]
        cases hbeq : (gid == x) with
        | false => rfl
        | true => exact absurd (eq_of_beq hbeq).symm hx
      have hnx' : ((f g).id == x) = false := by
        rw [hf g]
        exact hnx
      rw [hnx, hnx']
    · have hmf : modifyFirst (g :: gs) gid f = g :: modifyFirst gs gid f := by
        simp only [modifyFirst]
        rw [if_neg hp]
      rw [hmf, List.find?_cons, List.find?_cons]
      cases hq : (g.id == x) with
      | true => rfl
      | false => exact ih

/-- `modifyFirst` preserves the list length. -/
theorem modifyFirst_length (l : List Goal) (gid : String) (f : Goal → Goal) :
    (modifyFirst l gid f).length = l.length := by
  induction l with
  | nil => rfl
  | cons g gs ih =>
    unfold modifyFirst
    by_cases hp : (g.id == gid) = true
    · rw [if_pos hp]
      rfl
    · rw [if_neg hp]
      simpa using ih

/-- `any` agrees with the definedness of `find?`. -/
theorem any_eq_find?_isSome (l : List Goal) (p : Goal → Bool) :
    l.any p = (l.find? p).isSome := by
  induction l with
  | nil => rfl
  | cons g gs ih =>
    rw [List.any_cons, List.find?_cons]
    cases hp : p g with
    | true => rfl
    | false => simpa using ih

/-- `modifyGoal` when the id is found among the active goals. -/
theorem modifyGoal_eq_pos (s : GState) (gid : String) (f : Goal → Goal)
    (hany : s.goals.any (fun g => g.id == gid) = true) :
    modifyGoal s gid f = { s with goals := modifyFirst s.goals gid f } := by
  unfold modifyGoal
  rw [if_pos hany]

/-- `modifyGoal` when the id is not among the active goals. -/
theorem modifyGoal_eq_neg (s : GState) (gid : String) (f : Goal → Goal)
    (hany : ¬ s.goals.any (fun g => g.id == gid) = true) :
    modifyGoal s gid f =
      { s with completed_goals := modifyFirst s.completed_goals gid f } := by
  unfold modifyGoal
  rw [if_neg hany]

/-- `get_goal` as the ordered combination of the two searches. -/
theorem getGoal_eq (s : GState) (gid : String) :
    getGoal s gid = (s.goals.find? (fun g => g.id == gid)).or
      (s.completed_goals.find? (fun g => g.id == gid)) := by
  unfold getGoal
  cases s.goals.find? (fun g => g.id == gid) <;> rfl

/-- Looking up the modified id after `modifyGoal` returns the modified
goal, for an id-preserving modification. -/
theorem getGoal_modifyGoal_self (s : GState) (gid : String) (f : Goal → Goal)
    (hf : ∀ x, (f x).id = x.id) (g : Goal) (h : getGoal s gid = some g) :
    getGoal (modifyGoal s gid f) gid = some (f g) := by
  rw [getGoal_eq] at h
  cases hfg : s.goals.find? (fun g0 => g0.id == gid) with
  | some g0 =>
    rw [hfg] at h
    have h' : some g0 = some g := h
    injection h' with h''
    subst h''
    have hany : s.goals.any (fun g1 => g1.id == gid) = true := by
      rw [any_eq_find?_isSome, hfg]
      rfl
    rw [modifyGoal_eq_pos s gid f hany, getGoal_eq]
    show ((modifyFirst s.goals gid f).find? (fun g1 => g1.id == gid)).or
      (s.completed_goals.find? (fun g1 => g1.id == gid)) = some (f g0)
    rw [find?_modifyFirst_self s.goals gid f hf g0 hfg]
    rfl
  | none =>
    rw [hfg] at h
    have h' : s.completed_goals.find? (fun g0 => g0.id == gid) = some g := h
    have hany : ¬ s.goals.any (fun g1 => g1.id == gid) = true := by
      rw [any_eq_find?_isSome, hfg]
      simp
    rw [modifyGoal_eq_neg s gid f hany, getGoal_eq]
    show (s.goals.find? (fun g1 => g1.id == gid)).or
      ((modifyFirst s.completed_goals gid f).find? (fun g1 => g1.id == gid)) =
      some (f g)
    rw [hfg, find?_modifyFirst_self s.completed_goals gid f hf g h']
    rfl

/-- Looking up any other id is unaffected by an id-preserving
`modifyGoal`. -/
theorem getGoal_modifyGoal_other (s : GState) (gid x : String)
    (f : Goal → Goal) (hf : ∀ y, (f y).id = y.id) (hx : ¬ x = gid) :
    getGoal (modifyGoal s gid f) x = getGoal s x := by
  by_cases hany : s.goals.any (fun g => g.id == gid) = true
  · rw [modifyGoal_eq_pos s gid f hany, getGoal_eq, getGoal_eq]
    show ((modifyFirst s.goals gid f).find? (fun g => g.id == x)).or
      (s.completed_goals.find? (fun g => g.id == x)) =
      (s.goals.find? (fun g => g.id == x)).or
        (s.completed_goals.find? (fun g => g.id == x))
    rw [find?_modifyFirst_other s.goals gid x f hf hx]
  · rw [modifyGoal_eq_neg s gid f hany, getGoal_eq, getGoal_eq]
    show (s.goals.find? (fun g => g.id == x)).or
      ((modifyFirst s.completed_goals gid f).find? (fun g => g.id == x)) =
      (s.goals.find? (fun g => g.id == x)).or
        (s.completed_goals.find? (fun g => g.id == x))
    rw [find?_modifyFirst_other s.completed_goals gid x f hf hx]

/-- `modifyGoal` preserves the DFS fuel bound, which depends only on the
sizes of the two collections. -/
theorem dfsFuel_modifyGoal (s : GState) (gid : String) (f : Goal → Goal) :
    dfsFuel (modifyGoal s gid f) = dfsFuel s := by
  unfold dfsFuel modifyGoal
  by_cases hany : s.goals.any (fun g => g.id == gid) = true
  · rw [if_pos hany]
    simp [modifyFirst_length]
  · rw [if_neg hany]
    simp [modifyFirst_length]

/-- A DFS searching for target `a` never reads goal `a`'s dependency list
(reaching `a` returns `true` before the lookup), so two stores agreeing on
every other goal give identical searches for `a`. -/
theorem dfsCircular_congr_target (s s' : GState) (a : String)
    (hmod : ∀ x, ¬ x = a → getGoal s' x = getGoal s x) :
    ∀ (fuel : Nat) (gid : String) (visited : List String),
      dfsCircular s' fuel gid a visited = dfsCircular s fuel gid a visited := by
  intro fuel
  induction fuel with
  | zero => intro gid visited; simp [dfsCircular]
  | succ n ih =>
    intro gid visited
    by_cases h1 : gid ∈ visited
    · simp [dfsCircular, h1]
    · by_cases h2 : gid = a
      · simp [dfsCircular, h1, h2]
      · simp only [dfsCircular, if_neg h1, if_neg h2]
        rw [hmod gid h2]
        cases hget : getGoal s gid with
        | none => rfl
        | some g =>
          have hstep :
              (fun (acc : Bool × List String) d =>
                if acc.1 then acc else dfsCircular s' n d a acc.2) =
              (fun (acc : Bool × List String) d =>
                if acc.1 then acc else dfsCircular s n d a acc.2) := by
            funext acc d
            rw [ih]
          rw [hstep]

/-- C5: a successful `add_dependency(a, b)` makes the reverse call
`add_dependency(b, a)` return `false` with no state change (the DFS finds
the cycle), while re-issuing `add_dependency(a, b)` returns `true` and
appends nothing. -/
theorem reverse_dependency_rejected (s s' : GState) (a b : String)
    (h : addDependency s a b = (s', true)) :
    addDependency s' b a = (s', false) ∧ addDependency s' a b = (s', true) := by
  unfold addDependency at h
  cases hga : getGoal s a with
  | none =>
    rw [hga] at h
    cases hgb : getGoal s b <;> rw [hgb] at h <;>
      (injection h with _ h2; exact Bool.noConfusion h2)
  | some ga =>
    cases hgb : getGoal s b with
    | none =>
      rw [hga, hgb] at h
      injection h with _ h2
      exact Bool.noConfusion h2
    | some gb =>
      rw [hga, hgb] at h
      simp only at h
      by_cases hc : hasCircularDependency s b a = true
      · rw [if_pos hc] at h
        injection h with _ h2
        exact Bool.noConfusion h2
      · rw [if_neg hc] at h
        have hcf : hasCircularDependency s b a = false := Bool.eq_false_iff.mpr hc
        have hab : ¬ a = b := by
          intro he
          subst he
          rw [hasCircular_self_true s a] at hcf
          exact Bool.noConfusion hcf
        by_cases hmem : b ∈ ga.dependencies
        · rw [if_pos hmem] at h
          injection h with h1 _
          subst h1
          constructor
          · unfold addDependency
            rw [hgb, hga]
            simp only
            rw [if_pos (hasCircular_of_direct_dep s a b ga hga hmem)]
          · unfold addDependency
            rw [hga, hgb]
            simp only
            rw [if_neg hc, if_pos hmem]
        · rw [if_neg hmem] at h
          injection h with h1 _
          have hf : ∀ x : Goal, (appendDep b x).id = x.id := fun x => rfl
          have hga' : getGoal (modifyGoal s a (appendDep b)) a =
              some (appendDep b ga) :=
            getGoal_modifyGoal_self s a (appendDep b) hf ga hga
          have hgb' : getGoal (modifyGoal s a (appendDep b)) b = some gb := by
            rw [getGoal_modifyGoal_other s a b (appendDep b) hf
              (fun he => hab he.symm)]
            exact hgb
          have hbdep : b ∈ (appendDep b ga).dependencies := by
            unfold appendDep
            simp
          have hcmod :
              hasCircularDependency (modifyGoal s a (appendDep b)) b a = false := by
            unfold hasCircularDependency
            rw [dfsFuel_modifyGoal]
            rw [dfsCircular_congr_target s (modifyGoal s a (appendDep b)) a
              (fun x hx => getGoal_modifyGoal_other s a x (appendDep b) hf hx)
              (dfsFuel s) b []]
            unfold hasCircularDependency at hcf
            exact hcf
          have hcmod' :
              ¬ hasCircularDependency (modifyGoal s a (appendDep b)) b a = true := by
            rw [hcmod]
            exact fun hx => Bool.noConfusion hx
          subst h1
          constructor
          · unfold addDependency
            rw [hgb', hga']
            simp only
            rw [if_pos (hasCircular_of_direct_dep _ a b (appendDep b ga) hga' hbdep)]
          · unfold addDependency
            rw [hga', hgb']
            simp only
            rw [if_neg hcmod', if_pos hbdep]

/-- C5 witness: the two-goal store, its successful forward call, the
rejected reverse call and the idempotent re-add. -/
theorem reverse_dependency_rejected_witness :
    addDependency c5AfterAdd "goal_20_1" "goal_10_0" = (c5AfterAdd, false) ∧
    addDependency c5AfterAdd "goal_10_0" "goal_20_1" = (c5AfterAdd, true) :=
  reverse_dependency_rejected c5Store c5AfterAdd "goal_10_0" "goal_20_1" rfl

end SelfEvolvingAI
